import Mathlib

/-!
Shallow embedding of the SSHPong game (src/pong.js) and proofs about its
simulation, AI, input handling, rendering and session-resize behaviour.

JavaScript numbers are modelled as rationals (`ℚ`): every operation the
program performs on game coordinates is addition, subtraction,
multiplication by small constants, `Math.abs`, `Math.min`/`Math.max`,
`Math.floor` and comparisons, all of which are exact here.  Terminal
dimensions and scores are naturals.  Calls to `Math.random()` are modelled
by explicit rational parameters, one per call site of a tick.
-/

namespace Pong

/-- The mutable `gameState` object of pong.js (lines 17-29). -/
structure GameState where
  paddleLeft : ℚ
  paddleRight : ℚ
  ballX : ℚ
  ballY : ℚ
  ballSpeedX : ℚ
  ballSpeedY : ℚ
  scoreLeft : ℕ
  scoreRight : ℕ
  paused : Bool
  rows : ℕ
  columns : ℕ
  deriving Repr, DecidableEq

/-- The initial value of `gameState` at process start (pong.js lines 17-29). -/
def initialGameState : GameState :=
  { paddleLeft := 0, paddleRight := 0, ballX := 0, ballY := 0
    ballSpeedX := 1/2, ballSpeedY := 1/2
    scoreLeft := 0, scoreRight := 0, paused := false
    rows := 24, columns := 80 }

/-- The four `Math.random()` draws of one `resetBall` call (pong.js lines 82-83):
sign draw and magnitude draw for each axis, in source order. -/
structure ResetRand where
  rsx : ℚ
  rmx : ℚ
  rsy : ℚ
  rmy : ℚ
  deriving Repr, DecidableEq

/-- All `Math.random()` draws one `gameLoop` tick may consume: the spin
perturbations of the left (line 50) and right (line 54) paddle collisions and
the draws of a potential `resetBall` (lines 61-67). -/
structure TickRand where
  pl : ℚ
  pr : ℚ
  reset : ResetRand
  deriving Repr, DecidableEq

/-- Embeds `resetBall` (pong.js lines 79-84): center the ball and resample both
axis speeds as `(Math.random() > 0.5 ? 0.5 : -0.5) * (0.8 + Math.random() * 0.4)`.
`Math.floor(columns / 2)` on a natural is natural division. -/
def resetBall (s : GameState) (r : ResetRand) : GameState :=
  { s with
    ballX := ((s.columns / 2 : ℕ) : ℚ)
    ballY := ((s.rows / 2 : ℕ) : ℚ)
    ballSpeedX := (if r.rsx > 1/2 then (1/2 : ℚ) else -(1/2)) * (4/5 + r.rmx * (2/5))
    ballSpeedY := (if r.rsy > 1/2 then (1/2 : ℚ) else -(1/2)) * (4/5 + r.rmy * (2/5)) }

/-- Embeds `moveAIPaddle` (pong.js lines 86-95). -/
def moveAIPaddle (s : GameState) : GameState :=
  let paddleCenter := s.paddleRight + 5/2
  if s.ballY < paddleCenter - 1 then
    { s with paddleRight := max 0 (s.paddleRight - 2/5) }
  else if s.ballY > paddleCenter + 1 then
    { s with paddleRight := min ((s.rows : ℚ) - 6) (s.paddleRight + 2/5) }
  else s

/-- Position integration step of `gameLoop` (pong.js lines 39-40). -/
def integrate (s : GameState) : GameState :=
  { s with ballX := s.ballX + s.ballSpeedX, ballY := s.ballY + s.ballSpeedY }

/-- Vertical wall bounce step of `gameLoop` (pong.js lines 43-45). -/
def wallBounce (s : GameState) : GameState :=
  if s.ballY ≤ 0 ∨ s.ballY ≥ (s.rows : ℚ) - 1 then
    { s with ballSpeedY := -s.ballSpeedY }
  else s

/-- Left paddle collision step of `gameLoop` (pong.js lines 48-51); `r` is the
`Math.random()` draw of line 50. -/
def leftPaddle (s : GameState) (r : ℚ) : GameState :=
  if s.ballX ≤ 1 ∧ s.paddleLeft ≤ s.ballY ∧ s.ballY ≤ s.paddleLeft + 5 then
    { s with ballSpeedX := |s.ballSpeedX|
             ballSpeedY := s.ballSpeedY + (r - 1/2) * (1/5) }
  else s

/-- Right paddle collision step of `gameLoop` (pong.js lines 52-55); `r` is the
`Math.random()` draw of line 54. -/
def rightPaddle (s : GameState) (r : ℚ) : GameState :=
  if s.ballX ≥ (s.columns : ℚ) - 2 ∧ s.paddleRight ≤ s.ballY ∧ s.ballY ≤ s.paddleRight + 5 then
    { s with ballSpeedX := -|s.ballSpeedX|
             ballSpeedY := s.ballSpeedY + (r - 1/2) * (1/5) }
  else s

/-- Vertical clamp step of `gameLoop` (pong.js line 58):
`ballY = Math.max(0, Math.min(rows - 1, ballY))`. -/
def clampBallY (s : GameState) : GameState :=
  { s with ballY := max 0 (min ((s.rows : ℚ) - 1) s.ballY) }

/-- Scoring step of `gameLoop` (pong.js lines 61-67). -/
def scoreStep (s : GameState) (r : ResetRand) : GameState :=
  if s.ballX < 0 then
    resetBall { s with scoreRight := s.scoreRight + 1 } r
  else if s.ballX ≥ (s.columns : ℚ) then
    resetBall { s with scoreLeft := s.scoreLeft + 1 } r
  else s

/-- The state of the simulation after steps 1-5 of a non-paused tick
(pong.js lines 39-58), before the scoring step. -/
def preScore (s : GameState) (r : TickRand) : GameState :=
  clampBallY (rightPaddle (leftPaddle (wallBounce (integrate s)) r.pl) r.pr)

/-- One invocation of `gameLoop` as a state transformer (pong.js lines 32-77):
when paused it mutates nothing (lines 33-36); otherwise it runs integration,
wall bounce, both paddle collisions, the vertical clamp, scoring and the AI
paddle move, in source order.  Rendering and rescheduling are not part of
the game state. -/
def gameLoopTick (s : GameState) (r : TickRand) : GameState :=
  if s.paused then s
  else moveAIPaddle (scoreStep (preScore s r) r.reset)

/-- Embeds the `stream.on('data')` handler installed by `startGame`
(pong.js lines 129-139); `key` is `data.toString()` for the raw chunk. -/
def handleInput (s : GameState) (key : String) : GameState :=
  if key = "\x1b" then { s with paused := !s.paused }
  else if key = "w" ∧ s.paddleLeft > 0 then { s with paddleLeft := s.paddleLeft - 1 }
  else if key = "s" ∧ s.paddleLeft < (s.rows : ℚ) - 6 then { s with paddleLeft := s.paddleLeft + 1 }
  else s

/-- Embeds both the `session.on('pty')` handler (pong.js lines 162-169) and the
`session.on('window-change')` handler (lines 187-192), whose bodies are the
same assignment: if `info.rows` and `info.cols` are truthy (nonzero), copy
them into the state; nothing else is touched. -/
def resizeHandler (s : GameState) (infoRows infoCols : ℕ) : GameState :=
  if infoRows ≠ 0 ∧ infoCols ≠ 0 then { s with rows := infoRows, columns := infoCols } else s

/-- The state initialisation performed by `startGame` (pong.js lines 122-126):
both paddles to `Math.floor(rows / 2) - 3`, then `resetBall`. -/
def startGameInit (s : GameState) (r : ResetRand) : GameState :=
  resetBall
    { s with paddleLeft := ((s.rows / 2 : ℕ) : ℚ) - 3
             paddleRight := ((s.rows / 2 : ℕ) : ℚ) - 3 } r

/-- The asynchronous events that mutate `gameState` after `startGame` ran:
a timer tick of `gameLoop`, a raw input chunk, or a terminal resize
notification. -/
inductive Event where
  | tick (r : TickRand)
  | input (key : String)
  | resize (infoRows infoCols : ℕ)
  deriving Repr, DecidableEq

/-- Applies one event to the game state. -/
def applyEvent (s : GameState) (e : Event) : GameState :=
  match e with
  | Event.tick r => gameLoopTick s r
  | Event.input k => handleInput s k
  | Event.resize ir ic => resizeHandler s ir ic

/-- States of a running game: `startGame`'s initialisation applied to the
process-start state (after the pty negotiation, which at most resizes; the
no-pty case is `infoRows = 0`), followed by any sequence of ticks, inputs
and resizes. -/
inductive Reachable : GameState → Prop
  | start (ir ic : ℕ) (r : ResetRand) :
      Reachable (startGameInit (resizeHandler initialGameState ir ic) r)
  | step (s : GameState) (e : Event) : Reachable s → Reachable (applyEvent s e)

/-! ### The tick-loop scheduler

`gameLoop` is also a scheduling loop: every invocation ends in
`setTimeout(() => gameLoop(stream), 50)` - on line 34 when paused, on
line 76 otherwise - so firing a pending timer always leaves the number of
pending `gameLoop` callbacks unchanged.  The ESC branch of the input
handler (pong.js lines 131-133) flips `paused` and, when the new value is
`false`, calls `gameLoop(stream)` synchronously, which runs a tick and
schedules one more pending callback. -/

/-- The pause flag together with the number of pending scheduled `gameLoop`
callbacks ("tick loops"). -/
structure LoopState where
  paused : Bool
  loops : ℕ
  deriving Repr, DecidableEq

/-- A pending `gameLoop` timer fires (pong.js lines 32-77): the callback
consumes itself and reschedules exactly one successor, paused or not
(lines 34 and 76), so the pending count is unchanged. -/
def fireTimer (s : LoopState) : LoopState := s

/-- An escape-byte input (pong.js lines 131-133): toggle `paused`; if now
running, call `gameLoop` directly, which schedules one more pending
callback on line 76. -/
def escInput (s : LoopState) : LoopState :=
  let p := !s.paused
  if p then { paused := p, loops := s.loops }
  else { paused := p, loops := s.loops + 1 }

/-! ### The renderer

`renderGame` (pong.js lines 97-119) builds one frame by string
concatenation.  JavaScript template interpolation of an integer-valued
number prints its decimal digits, with a leading minus sign when negative;
`natToString`/`intToString` embed that. -/

/-- The decimal digit character for `n % 10`. -/
def digitChar (n : ℕ) : Char :=
  if n % 10 = 0 then '0'
  else if n % 10 = 1 then '1'
  else if n % 10 = 2 then '2'
  else if n % 10 = 3 then '3'
  else if n % 10 = 4 then '4'
  else if n % 10 = 5 then '5'
  else if n % 10 = 6 then '6'
  else if n % 10 = 7 then '7'
  else if n % 10 = 8 then '8'
  else '9'

/-- Accumulates the decimal digits of `n`, most significant first, in front
of `acc`. -/
def natToCharsAux (n : ℕ) (acc : List Char) : List Char :=
  if n < 10 then digitChar n :: acc
  else natToCharsAux (n / 10) (digitChar (n % 10) :: acc)
  termination_by n
  decreasing_by exact Nat.div_lt_self (by omega) (by omega)

/-- Decimal rendering of a natural, as JavaScript prints it. -/
def natToString (n : ℕ) : String := ⟨natToCharsAux n []⟩

/-- Decimal rendering of an integer, as JavaScript prints an integer-valued
number. -/
def intToString (n : ℤ) : String :=
  if n < 0 then "-" ++ natToString n.natAbs else natToString n.natAbs

/-- Concatenation of a list of strings in order, as the `output += ...`
loops of `renderGame` produce. -/
def strConcat : List String → String
  | [] => ""
  | x :: rest => x ++ strConcat rest

/-- One iteration of the paddle-render loop (pong.js lines 101-104): a green
bar cell of the left paddle at column 1 and of the right paddle at column
`columns`, on row `Math.floor(paddle) + i + 1`. -/
def paddleLine (s : GameState) (i : ℕ) : String :=
  "\x1b[" ++ intToString (⌊s.paddleLeft⌋ + i + 1) ++ ";1H\x1b[32m|\x1b[0m"
    ++ "\x1b[" ++ intToString (⌊s.paddleRight⌋ + i + 1) ++ ";"
    ++ natToString s.columns ++ "H\x1b[32m|\x1b[0m"

/-- One iteration of the middle-bar loop (pong.js lines 107-109): a white bar
cell on row `i + 1`, column `Math.floor(columns / 2)`. -/
def midLine (s : GameState) (i : ℕ) : String :=
  "\x1b[" ++ natToString (i + 1) ++ ";" ++ natToString (s.columns / 2)
    ++ "H\x1b[37m|\x1b[0m"

/-- The ball glyph (pong.js line 112): a red dot on row
`Math.floor(ballY) + 1`, column `Math.floor(ballX) + 1`. -/
def ballSeq (s : GameState) : String :=
  "\x1b[" ++ intToString (⌊s.ballY⌋ + 1) ++ ";" ++ intToString (⌊s.ballX⌋ + 1)
    ++ "H\x1b[31m●\x1b[0m"

/-- The two score labels (pong.js lines 115-116). -/
def scoreSeq (s : GameState) : String :=
  "\x1b[" ++ natToString s.rows ++ ";" ++ intToString (((s.columns / 4 : ℕ) : ℤ) - 10)
    ++ "H\x1b[36mPLAYER: " ++ natToString s.scoreLeft ++ "\x1b[0m"
    ++ "\x1b[" ++ natToString s.rows ++ ";" ++ intToString (((3 * s.columns / 4 : ℕ) : ℤ) - 14)
    ++ "H\x1b[36mCOMPUTER: " ++ natToString s.scoreRight ++ "\x1b[0m"

/-- Embeds `renderGame` (pong.js lines 97-119): clear screen and home the
cursor, then paddles, middle bar, ball and scores, concatenated in source
order. -/
def renderGame (s : GameState) : String :=
  "\x1b[2J\x1b[H"
    ++ strConcat ((List.range 6).map (paddleLine s))
    ++ strConcat ((List.range s.rows).map (midLine s))
    ++ ballSeq s
    ++ scoreSeq s

/-- Occurrences of a character in a string. -/
def countChar (str : String) (c : Char) : ℕ := str.data.count c

/-! ### Concrete sample data used by counterexamples and witnesses. -/

/-- Random draws making `resetBall` serve to the right at speed `(2/5, -2/5)`. -/
def sampleReset : ResetRand := { rsx := 1, rmx := 0, rsy := 0, rmy := 0 }

/-- Tick draws with neutral spin perturbations. -/
def sampleTick : TickRand := { pl := 1/2, pr := 1/2, reset := sampleReset }

/-- The game state right after `startGame` on a default 24x80 terminal with
the `sampleReset` draws: paddles at 9, ball at `(40, 12)` moving `(2/5, -2/5)`. -/
def sampleStart : GameState := startGameInit (resizeHandler initialGameState 24 80) sampleReset

/-- `sampleStart` after the terminal is resized to 10 rows: the paddles are
still at row 9, beyond the new `rows - 6 = 4`. -/
def shrunkState : GameState := resizeHandler sampleStart 10 80

/-- The mid-tick state of the first tick after the shrink, just before the
`moveAIPaddle` call of that tick. -/
def shrunkMid : GameState := scoreStep (preScore shrunkState sampleTick) sampleReset

/-- The test state of spec property 7: ball at `(1/2, 9)` moving `(-1/2, 1/2)`
toward the left paddle band `9..14` on a default terminal. -/
def leftHitState : GameState :=
  { sampleStart with ballX := 1/2, ballY := 9, ballSpeedX := -(1/2), ballSpeedY := 1/2 }

/-- A state whose left paddle sits at the non-integer height 1/2. -/
def halfPaddleState : GameState := { initialGameState with paddleLeft := 1/2 }

/-- A generic all-integer mid-game state on a default 24x80 terminal, used as
a concrete instance for universally quantified theorems. -/
def witGame : GameState :=
  { paddleLeft := 9, paddleRight := 9, ballX := 40, ballY := 12
    ballSpeedX := 1, ballSpeedY := 1
    scoreLeft := 0, scoreRight := 0, paused := false, rows := 24, columns := 80 }

/-- Concrete tick draws with all random values zero. -/
def witTick : TickRand := { pl := 0, pr := 0, reset := { rsx := 0, rmx := 0, rsy := 0, rmy := 0 } }

/-- An all-integer state whose ball sits at `(0, 9)` inside the left paddle
band `9..14`. -/
def witLeftHit : GameState := { witGame with ballX := 0, ballY := 9 }

/-! ### Frame lemmas: which fields each step leaves untouched. -/

@[simp] theorem integrate_rows (s : GameState) : (integrate s).rows = s.rows := rfl

@[simp] theorem integrate_columns (s : GameState) : (integrate s).columns = s.columns := rfl

@[simp] theorem integrate_paddleLeft (s : GameState) : (integrate s).paddleLeft = s.paddleLeft := rfl

@[simp] theorem integrate_paddleRight (s : GameState) : (integrate s).paddleRight = s.paddleRight := rfl

@[simp] theorem integrate_scoreLeft (s : GameState) : (integrate s).scoreLeft = s.scoreLeft := rfl

@[simp] theorem integrate_scoreRight (s : GameState) : (integrate s).scoreRight = s.scoreRight := rfl

@[simp] theorem integrate_ballX (s : GameState) : (integrate s).ballX = s.ballX + s.ballSpeedX := rfl

@[simp] theorem integrate_ballY (s : GameState) : (integrate s).ballY = s.ballY + s.ballSpeedY := rfl

@[simp] theorem integrate_ballSpeedX (s : GameState) : (integrate s).ballSpeedX = s.ballSpeedX := rfl

@[simp] theorem integrate_ballSpeedY (s : GameState) : (integrate s).ballSpeedY = s.ballSpeedY := rfl

@[simp] theorem wallBounce_rows (s : GameState) : (wallBounce s).rows = s.rows := by
  unfold wallBounce; split <;> rfl

@[simp] theorem wallBounce_columns (s : GameState) : (wallBounce s).columns = s.columns := by
  unfold wallBounce; split <;> rfl

@[simp] theorem wallBounce_paddleLeft (s : GameState) : (wallBounce s).paddleLeft = s.paddleLeft := by
  unfold wallBounce; split <;> rfl

@[simp] theorem wallBounce_paddleRight (s : GameState) : (wallBounce s).paddleRight = s.paddleRight := by
  unfold wallBounce; split <;> rfl

@[simp] theorem wallBounce_scoreLeft (s : GameState) : (wallBounce s).scoreLeft = s.scoreLeft := by
  unfold wallBounce; split <;> rfl

@[simp] theorem wallBounce_scoreRight (s : GameState) : (wallBounce s).scoreRight = s.scoreRight := by
  unfold wallBounce; split <;> rfl

@[simp] theorem wallBounce_ballX (s : GameState) : (wallBounce s).ballX = s.ballX := by
  unfold wallBounce; split <;> rfl

@[simp] theorem wallBounce_ballY (s : GameState) : (wallBounce s).ballY = s.ballY := by
  unfold wallBounce; split <;> rfl

@[simp] theorem wallBounce_ballSpeedX (s : GameState) : (wallBounce s).ballSpeedX = s.ballSpeedX := by
  unfold wallBounce; split <;> rfl

@[simp] theorem leftPaddle_rows (s : GameState) (r : ℚ) : (leftPaddle s r).rows = s.rows := by
  unfold leftPaddle; split <;> rfl

@[simp] theorem leftPaddle_columns (s : GameState) (r : ℚ) : (leftPaddle s r).columns = s.columns := by
  unfold leftPaddle; split <;> rfl

@[simp] theorem leftPaddle_paddleLeft (s : GameState) (r : ℚ) :
    (leftPaddle s r).paddleLeft = s.paddleLeft := by
  unfold leftPaddle; split <;> rfl

@[simp] theorem leftPaddle_paddleRight (s : GameState) (r : ℚ) :
    (leftPaddle s r).paddleRight = s.paddleRight := by
  unfold leftPaddle; split <;> rfl

@[simp] theorem leftPaddle_scoreLeft (s : GameState) (r : ℚ) :
    (leftPaddle s r).scoreLeft = s.scoreLeft := by
  unfold leftPaddle; split <;> rfl

@[simp] theorem leftPaddle_scoreRight (s : GameState) (r : ℚ) :
    (leftPaddle s r).scoreRight = s.scoreRight := by
  unfold leftPaddle; split <;> rfl

@[simp] theorem leftPaddle_ballX (s : GameState) (r : ℚ) : (leftPaddle s r).ballX = s.ballX := by
  unfold leftPaddle; split <;> rfl

@[simp] theorem leftPaddle_ballY (s : GameState) (r : ℚ) : (leftPaddle s r).ballY = s.ballY := by
  unfold leftPaddle; split <;> rfl

@[simp] theorem rightPaddle_rows (s : GameState) (r : ℚ) : (rightPaddle s r).rows = s.rows := by
  unfold rightPaddle; split <;> rfl

@[simp] theorem rightPaddle_columns (s : GameState) (r : ℚ) : (rightPaddle s r).columns = s.columns := by
  unfold rightPaddle; split <;> rfl

@[simp] theorem rightPaddle_paddleLeft (s : GameState) (r : ℚ) :
    (rightPaddle s r).paddleLeft = s.paddleLeft := by
  unfold rightPaddle; split <;> rfl

@[simp] theorem rightPaddle_paddleRight (s : GameState) (r : ℚ) :
    (rightPaddle s r).paddleRight = s.paddleRight := by
  unfold rightPaddle; split <;> rfl

@[simp] theorem rightPaddle_scoreLeft (s : GameState) (r : ℚ) :
    (rightPaddle s r).scoreLeft = s.scoreLeft := by
  unfold rightPaddle; split <;> rfl

@[simp] theorem rightPaddle_scoreRight (s : GameState) (r : ℚ) :
    (rightPaddle s r).scoreRight = s.scoreRight := by
  unfold rightPaddle; split <;> rfl

@[simp] theorem rightPaddle_ballX (s : GameState) (r : ℚ) : (rightPaddle s r).ballX = s.ballX := by
  unfold rightPaddle; split <;> rfl

@[simp] theorem rightPaddle_ballY (s : GameState) (r : ℚ) : (rightPaddle s r).ballY = s.ballY := by
  unfold rightPaddle; split <;> rfl

@[simp] theorem clampBallY_rows (s : GameState) : (clampBallY s).rows = s.rows := rfl

@[simp] theorem clampBallY_columns (s : GameState) : (clampBallY s).columns = s.columns := rfl

@[simp] theorem clampBallY_paddleLeft (s : GameState) : (clampBallY s).paddleLeft = s.paddleLeft := rfl

@[simp] theorem clampBallY_paddleRight (s : GameState) : (clampBallY s).paddleRight = s.paddleRight := rfl

@[simp] theorem clampBallY_scoreLeft (s : GameState) : (clampBallY s).scoreLeft = s.scoreLeft := rfl

@[simp] theorem clampBallY_scoreRight (s : GameState) : (clampBallY s).scoreRight = s.scoreRight := rfl

@[simp] theorem clampBallY_ballX (s : GameState) : (clampBallY s).ballX = s.ballX := rfl

@[simp] theorem clampBallY_ballY (s : GameState) :
    (clampBallY s).ballY = max 0 (min ((s.rows : ℚ) - 1) s.ballY) := rfl

@[simp] theorem resetBall_rows (s : GameState) (r : ResetRand) : (resetBall s r).rows = s.rows := rfl

@[simp] theorem resetBall_columns (s : GameState) (r : ResetRand) :
    (resetBall s r).columns = s.columns := rfl

@[simp] theorem resetBall_paddleLeft (s : GameState) (r : ResetRand) :
    (resetBall s r).paddleLeft = s.paddleLeft := rfl

@[simp] theorem resetBall_paddleRight (s : GameState) (r : ResetRand) :
    (resetBall s r).paddleRight = s.paddleRight := rfl

@[simp] theorem resetBall_scoreLeft (s : GameState) (r : ResetRand) :
    (resetBall s r).scoreLeft = s.scoreLeft := rfl

@[simp] theorem resetBall_scoreRight (s : GameState) (r : ResetRand) :
    (resetBall s r).scoreRight = s.scoreRight := rfl

@[simp] theorem resetBall_ballX (s : GameState) (r : ResetRand) :
    (resetBall s r).ballX = ((s.columns / 2 : ℕ) : ℚ) := rfl

@[simp] theorem resetBall_ballY (s : GameState) (r : ResetRand) :
    (resetBall s r).ballY = ((s.rows / 2 : ℕ) : ℚ) := rfl

@[simp] theorem scoreStep_rows (s : GameState) (r : ResetRand) : (scoreStep s r).rows = s.rows := by
  unfold scoreStep; split <;> [rfl; split <;> rfl]

@[simp] theorem scoreStep_columns (s : GameState) (r : ResetRand) :
    (scoreStep s r).columns = s.columns := by
  unfold scoreStep; split <;> [rfl; split <;> rfl]

@[simp] theorem scoreStep_paddleLeft (s : GameState) (r : ResetRand) :
    (scoreStep s r).paddleLeft = s.paddleLeft := by
  unfold scoreStep; split <;> [rfl; split <;> rfl]

@[simp] theorem scoreStep_paddleRight (s : GameState) (r : ResetRand) :
    (scoreStep s r).paddleRight = s.paddleRight := by
  unfold scoreStep; split <;> [rfl; split <;> rfl]

@[simp] theorem moveAIPaddle_rows (s : GameState) : (moveAIPaddle s).rows = s.rows := by
  unfold moveAIPaddle; dsimp only; split <;> [rfl; split <;> rfl]

@[simp] theorem moveAIPaddle_columns (s : GameState) : (moveAIPaddle s).columns = s.columns := by
  unfold moveAIPaddle; dsimp only; split <;> [rfl; split <;> rfl]

@[simp] theorem moveAIPaddle_paddleLeft (s : GameState) :
    (moveAIPaddle s).paddleLeft = s.paddleLeft := by
  unfold moveAIPaddle; dsimp only; split <;> [rfl; split <;> rfl]

@[simp] theorem moveAIPaddle_ballX (s : GameState) : (moveAIPaddle s).ballX = s.ballX := by
  unfold moveAIPaddle; dsimp only; split <;> [rfl; split <;> rfl]

@[simp] theorem moveAIPaddle_ballY (s : GameState) : (moveAIPaddle s).ballY = s.ballY := by
  unfold moveAIPaddle; dsimp only; split <;> [rfl; split <;> rfl]

@[simp] theorem moveAIPaddle_ballSpeedX (s : GameState) :
    (moveAIPaddle s).ballSpeedX = s.ballSpeedX := by
  unfold moveAIPaddle; dsimp only; split <;> [rfl; split <;> rfl]

@[simp] theorem moveAIPaddle_ballSpeedY (s : GameState) :
    (moveAIPaddle s).ballSpeedY = s.ballSpeedY := by
  unfold moveAIPaddle; dsimp only; split <;> [rfl; split <;> rfl]

@[simp] theorem moveAIPaddle_scoreLeft (s : GameState) :
    (moveAIPaddle s).scoreLeft = s.scoreLeft := by
  unfold moveAIPaddle; dsimp only; split <;> [rfl; split <;> rfl]

@[simp] theorem moveAIPaddle_scoreRight (s : GameState) :
    (moveAIPaddle s).scoreRight = s.scoreRight := by
  unfold moveAIPaddle; dsimp only; split <;> [rfl; split <;> rfl]

@[simp] theorem preScore_rows (s : GameState) (r : TickRand) : (preScore s r).rows = s.rows := by
  unfold preScore; simp

@[simp] theorem preScore_columns (s : GameState) (r : TickRand) :
    (preScore s r).columns = s.columns := by
  unfold preScore; simp

@[simp] theorem preScore_paddleLeft (s : GameState) (r : TickRand) :
    (preScore s r).paddleLeft = s.paddleLeft := by
  unfold preScore; simp

@[simp] theorem preScore_paddleRight (s : GameState) (r : TickRand) :
    (preScore s r).paddleRight = s.paddleRight := by
  unfold preScore; simp

@[simp] theorem preScore_scoreLeft (s : GameState) (r : TickRand) :
    (preScore s r).scoreLeft = s.scoreLeft := by
  unfold preScore; simp

@[simp] theorem preScore_scoreRight (s : GameState) (r : TickRand) :
    (preScore s r).scoreRight = s.scoreRight := by
  unfold preScore; simp

@[simp] theorem preScore_ballX (s : GameState) (r : TickRand) :
    (preScore s r).ballX = s.ballX + s.ballSpeedX := by
  unfold preScore; simp

theorem gameLoopTick_paddleLeft (s : GameState) (r : TickRand) :
    (gameLoopTick s r).paddleLeft = s.paddleLeft := by
  unfold gameLoopTick; split <;> simp

/-! ### Arithmetic helper lemmas. -/

/-- The centre row `Math.floor(rows / 2)` is a valid row index when the board
has at least one row. -/
theorem center_row_le (n : ℕ) (h : 1 ≤ n) : ((n / 2 : ℕ) : ℚ) ≤ (n : ℚ) - 1 := by
  have h2 : n / 2 ≤ n - 1 := by omega
  calc ((n / 2 : ℕ) : ℚ) ≤ ((n - 1 : ℕ) : ℚ) := by exact_mod_cast h2
    _ = (n : ℚ) - 1 := by push_cast [h]; ring

/-- Closed form of the AI paddle position after one `moveAIPaddle` call. -/
theorem moveAIPaddle_paddleRight_eq (s : GameState) :
    (moveAIPaddle s).paddleRight =
      if s.ballY < s.paddleRight + 5/2 - 1 then max 0 (s.paddleRight - 2/5)
      else if s.ballY > s.paddleRight + 5/2 + 1 then min ((s.rows : ℚ) - 6) (s.paddleRight + 2/5)
      else s.paddleRight := by
  unfold moveAIPaddle; dsimp only; split_ifs <;> rfl

/-- One axis of `resetBall`: the sampled speed factors into a sign from the
sign draw and a magnitude `2/5 + m/5` from the magnitude draw, and the
magnitude lies in `[2/5, 3/5)` for draws in `[0, 1)`. -/
theorem serve_speed_formula (sig m : ℚ) (h0 : 0 ≤ m) (h1 : m < 1) :
    (if sig > 1/2 then (1/2 : ℚ) else -(1/2)) * (4/5 + m * (2/5))
        = (if sig > 1/2 then 1 else -1) * (2/5 + m / 5)
    ∧ 2/5 ≤ |(if sig > 1/2 then (1/2 : ℚ) else -(1/2)) * (4/5 + m * (2/5))|
    ∧ |(if sig > 1/2 then (1/2 : ℚ) else -(1/2)) * (4/5 + m * (2/5))| < 3/5 := by
  have hm : (0 : ℚ) < 2/5 + m / 5 := by linarith
  split_ifs with h
  · rw [show ((1:ℚ)/2) * (4/5 + m * (2/5)) = 2/5 + m / 5 by ring]
    rw [abs_of_pos hm]
    exact ⟨by ring, by linarith, by linarith⟩
  · rw [show (-((1:ℚ)/2)) * (4/5 + m * (2/5)) = -(2/5 + m / 5) by ring]
    rw [abs_neg, abs_of_pos hm]
    exact ⟨by ring, by linarith, by linarith⟩

/-! ### Claim theorems. -/

/-- C1 (code bug): the pause-toggle is not loop-safe.  From a paused state
with one pending tick-loop callback, an escape byte unpauses and the direct
`gameLoop` call schedules a second pending callback while the paused loop's
own pending callback survives; a second escape byte restores `paused := true`
but both callbacks stay scheduled.  So after two consecutive escape bytes the
pause flag is back to its original value, yet the number of concurrently
scheduled tick loops has grown from 1 to 2 (a 40 Hz cadence once running),
contradicting the claim that it is unchanged.  Timer fires themselves never
change the count. -/
theorem c1_escape_toggle_accumulates_loops :
    (escInput { paused := true, loops := 1 }).paused = false
    ∧ (escInput { paused := true, loops := 1 }).loops = 2
    ∧ (escInput (escInput { paused := true, loops := 1 })).paused = true
    ∧ (escInput (escInput { paused := true, loops := 1 })).loops = 2
    ∧ ∀ s : LoopState, fireTimer s = s :=
  ⟨rfl, rfl, rfl, rfl, fun _ => rfl⟩

/-- C9 (confirmed): the pty and window-change handlers assign only `rows` and
`columns`; every other field of the game state is untouched, and no
re-clamping happens: after `sampleStart` (ball at row 12, paddles at row 9 on
a 24-row board) is resized to 10 rows, both `ballY ≤ rows - 1` and
`paddleRight ≤ rows - 6` are violated in the resized state. -/
theorem c9_resize_touches_only_dimensions :
    (∀ (s : GameState) (ir ic : ℕ),
      (resizeHandler s ir ic).paddleLeft = s.paddleLeft
      ∧ (resizeHandler s ir ic).paddleRight = s.paddleRight
      ∧ (resizeHandler s ir ic).ballX = s.ballX
      ∧ (resizeHandler s ir ic).ballY = s.ballY
      ∧ (resizeHandler s ir ic).ballSpeedX = s.ballSpeedX
      ∧ (resizeHandler s ir ic).ballSpeedY = s.ballSpeedY
      ∧ (resizeHandler s ir ic).scoreLeft = s.scoreLeft
      ∧ (resizeHandler s ir ic).scoreRight = s.scoreRight
      ∧ (resizeHandler s ir ic).paused = s.paused)
    ∧ ¬ (shrunkState.ballY ≤ (shrunkState.rows : ℚ) - 1)
    ∧ ¬ (shrunkState.paddleRight ≤ (shrunkState.rows : ℚ) - 6) := by
  refine ⟨fun s ir ic => ?_, ?_, ?_⟩
  · unfold resizeHandler
    split <;> exact ⟨rfl, rfl, rfl, rfl, rfl, rfl, rfl, rfl, rfl⟩
  · norm_num [shrunkState, sampleStart, sampleReset, startGameInit, resizeHandler,
      resetBall, initialGameState]
  · norm_num [shrunkState, sampleStart, sampleReset, startGameInit, resizeHandler,
      resetBall, initialGameState]

/-- C5 (confirmed): `resetBall` centres the ball at
`(Math.floor(columns / 2), Math.floor(rows / 2))` and resamples each axis
speed as `sign(rand) * (2/5 + rand' / 5)`: the sign factor depends only on
that axis's sign draw, the magnitude `2/5 + rand' / 5` only on its magnitude
draw, and whenever the magnitude draws lie in `[0, 1)` both speeds have
absolute value in `[2/5, 3/5)`. -/
theorem c5_resetBall_center_and_speed (s : GameState) (r : ResetRand)
    (hx0 : 0 ≤ r.rmx) (hx1 : r.rmx < 1) (hy0 : 0 ≤ r.rmy) (hy1 : r.rmy < 1) :
    (resetBall s r).ballX = ((s.columns / 2 : ℕ) : ℚ)
    ∧ (resetBall s r).ballY = ((s.rows / 2 : ℕ) : ℚ)
    ∧ (resetBall s r).ballSpeedX = (if r.rsx > 1/2 then 1 else -1) * (2/5 + r.rmx / 5)
    ∧ (resetBall s r).ballSpeedY = (if r.rsy > 1/2 then 1 else -1) * (2/5 + r.rmy / 5)
    ∧ 2/5 ≤ |(resetBall s r).ballSpeedX| ∧ |(resetBall s r).ballSpeedX| < 3/5
    ∧ 2/5 ≤ |(resetBall s r).ballSpeedY| ∧ |(resetBall s r).ballSpeedY| < 3/5 := by
  obtain ⟨ex, bx1, bx2⟩ := serve_speed_formula r.rsx r.rmx hx0 hx1
  obtain ⟨ey, by1, by2⟩ := serve_speed_formula r.rsy r.rmy hy0 hy1
  exact ⟨rfl, rfl, ex, ey, bx1, bx2, by1, by2⟩

/-- Witness for C5 at the concrete draws `sampleReset`. -/
theorem c5_resetBall_center_and_speed_witness :
    (0 ≤ sampleReset.rmx ∧ sampleReset.rmx < 1 ∧ 0 ≤ sampleReset.rmy ∧ sampleReset.rmy < 1)
    ∧ (resetBall initialGameState sampleReset).ballX = ((initialGameState.columns / 2 : ℕ) : ℚ) :=
  ⟨⟨by decide, by decide, by decide, by decide⟩,
    (c5_resetBall_center_and_speed initialGameState sampleReset
      (by decide) (by decide) (by decide) (by decide)).1⟩

/-- C7 (counterexample): the claimed flooring at 0 fails for arbitrary
states.  For a state whose `paddleLeft` is the non-integer 1/2, the chunk
w yields `paddleLeft = -1/2 < 0`, because the code guards the decrement
with `paddleLeft > 0` instead of clamping the result. -/
theorem c7_input_floor_fails_noninteger :
    (handleInput halfPaddleState "w").paddleLeft = -(1/2)
    ∧ ¬ (0 ≤ (handleInput halfPaddleState "w").paddleLeft) := by
  unfold handleInput halfPaddleState initialGameState
  rw [if_neg (by decide : ¬ ("w" : String) = "\x1b"), if_pos ⟨rfl, by norm_num⟩]
  norm_num

/-- C7 (amended): for a state whose left paddle sits at a nonnegative
integer height `n` with `n + 6 ≤ rows` - that is, an integer within
`[0, rows - 6]`, as holds at game start on the default 24-row terminal,
though a small initial terminal or a later resize can break it - the data
handler maps the chunk w to `paddleLeft = max 0 (paddleLeft - 1)`, the
chunk s to `paddleLeft = min (rows - 6) (paddleLeft + 1)`, and leaves the
whole state unchanged (raising nothing) on any chunk other than w, s and
the lone escape byte. -/
theorem c7_amended_input_rules (s : GameState) (n : ℕ) (hn : s.paddleLeft = (n : ℚ))
    (hub : n + 6 ≤ s.rows) :
    (handleInput s "w").paddleLeft = max 0 (s.paddleLeft - 1)
    ∧ (handleInput s "s").paddleLeft = min ((s.rows : ℚ) - 6) (s.paddleLeft + 1)
    ∧ ∀ key : String, key ≠ "w" → key ≠ "s" → key ≠ "\x1b" → handleInput s key = s := by
  have hub' : (n : ℚ) + 6 ≤ (s.rows : ℚ) := by exact_mod_cast hub
  refine ⟨?_, ?_, ?_⟩
  · unfold handleInput
    rw [if_neg (by decide : ¬ ("w" : String) = "\x1b")]
    by_cases hp : s.paddleLeft > 0
    · rw [if_pos ⟨rfl, hp⟩]
      have h1 : (1 : ℚ) ≤ (n : ℚ) := by
        rw [hn] at hp
        have h0 : 0 < n := by exact_mod_cast hp
        exact_mod_cast h0
      show s.paddleLeft - 1 = max 0 (s.paddleLeft - 1)
      rw [max_eq_right (by rw [hn]; linarith)]
    · rw [if_neg (fun hc => hp hc.2),
        if_neg (fun hc => absurd hc.1 (by decide : ¬ ("w" : String) = "s"))]
      have h0 : s.paddleLeft = 0 := by
        rw [hn] at hp ⊢
        have hle : (n : ℚ) ≤ 0 := not_lt.mp hp
        have : (0 : ℚ) ≤ (n : ℚ) := by positivity
        linarith
      rw [h0]; norm_num
  · unfold handleInput
    rw [if_neg (by decide : ¬ ("s" : String) = "\x1b"),
      if_neg (fun hc => absurd hc.1 (by decide : ¬ ("s" : String) = "w"))]
    by_cases hp : s.paddleLeft < (s.rows : ℚ) - 6
    · rw [if_pos ⟨rfl, hp⟩]
      have hlt : n + 6 < s.rows := by
        rw [hn] at hp
        have : (n : ℚ) + 6 < (s.rows : ℚ) := by linarith
        exact_mod_cast this
      have hcast : (n : ℚ) + 7 ≤ (s.rows : ℚ) := by exact_mod_cast hlt
      show s.paddleLeft + 1 = min ((s.rows : ℚ) - 6) (s.paddleLeft + 1)
      rw [min_eq_right (by rw [hn]; linarith)]
    · rw [if_neg (fun hc => hp hc.2)]
      have hge : (s.rows : ℚ) - 6 ≤ s.paddleLeft := not_lt.mp hp
      rw [min_eq_left (by linarith)]
      rw [hn]; linarith
  · intro key h1 h2 h3
    unfold handleInput
    rw [if_neg h3, if_neg (fun hc => h1 hc.1), if_neg (fun hc => h2 hc.1)]

/-- Witness for C7 (amended) at the all-integer state `witGame`. -/
theorem c7_amended_input_rules_witness :
    (witGame.paddleLeft = ((9 : ℕ) : ℚ) ∧ 9 + 6 ≤ witGame.rows)
    ∧ (handleInput witGame "w").paddleLeft = max 0 (witGame.paddleLeft - 1) :=
  ⟨⟨by decide, by decide⟩, (c7_amended_input_rules witGame 9 (by decide) (by decide)).1⟩

/-- C2 (counterexample): the per-tick AI bound fails on reachable states.
Start a game on a 24x80 terminal (paddles at row 9), shrink the terminal to
10 rows, and run one tick: the tick ends with its `moveAIPaddle` call, after
which `paddleRight = 43/5`, above `rows - 6 = 4` - the move branch taken
clamps only at 0, so the stale position survives the shrink. -/
theorem c2_ai_bound_fails_after_resize :
    Reachable (moveAIPaddle shrunkMid)
    ∧ (moveAIPaddle shrunkMid).paddleRight = 43/5
    ∧ (moveAIPaddle shrunkMid).rows = 10
    ∧ ¬ ((moveAIPaddle shrunkMid).paddleRight ≤ ((moveAIPaddle shrunkMid).rows : ℚ) - 6) := by
  have hp : shrunkState.paused = false := rfl
  have heq : moveAIPaddle shrunkMid = applyEvent shrunkState (Event.tick sampleTick) := by
    simp only [applyEvent, gameLoopTick, hp, Bool.false_eq_true, if_false]
    rfl
  refine ⟨?_, ?_, ?_, ?_⟩
  · rw [heq]
    exact Reachable.step _ _ (Reachable.step sampleStart (Event.resize 10 80)
      (Reachable.start 24 80 sampleReset))
  all_goals
    norm_num [shrunkMid, shrunkState, sampleStart, sampleTick, sampleReset, startGameInit,
      resizeHandler, initialGameState, preScore, integrate, wallBounce, leftPaddle,
      rightPaddle, clampBallY, scoreStep, resetBall, moveAIPaddle]

/-- C2 (amended): provided `0 ≤ paddleRight ≤ rows - 6` already holds when
`moveAIPaddle` runs (true at game start; a terminal shrink can break it),
it holds again afterwards; the paddle is unchanged when `ballY` lies in the
dead zone `[paddleRight + 3/2, paddleRight + 7/2]` around the paddle centre
`paddleRight + 5/2`, and otherwise moves by the fixed increment 2/5 toward
the ball, clamped below at 0 (upward) and above at `rows - 6` (downward). -/
theorem c2_amended_ai_paddle (s : GameState) (h6 : 6 ≤ s.rows)
    (h0 : 0 ≤ s.paddleRight) (h1 : s.paddleRight ≤ ((s.rows - 6 : ℕ) : ℚ)) :
    (0 ≤ (moveAIPaddle s).paddleRight ∧ (moveAIPaddle s).paddleRight ≤ (s.rows : ℚ) - 6)
    ∧ (s.paddleRight + 3/2 ≤ s.ballY ∧ s.ballY ≤ s.paddleRight + 7/2 →
        (moveAIPaddle s).paddleRight = s.paddleRight)
    ∧ (s.ballY < s.paddleRight + 3/2 →
        (moveAIPaddle s).paddleRight = max 0 (s.paddleRight - 2/5))
    ∧ (s.paddleRight + 7/2 < s.ballY →
        (moveAIPaddle s).paddleRight = min ((s.rows : ℚ) - 6) (s.paddleRight + 2/5)) := by
  have hcast : ((s.rows - 6 : ℕ) : ℚ) = (s.rows : ℚ) - 6 := by push_cast [h6]; ring
  rw [hcast] at h1
  rw [moveAIPaddle_paddleRight_eq]
  split_ifs with hA hB
  · refine ⟨⟨le_max_left 0 _, max_le (by linarith) (by linarith)⟩, ?_, ?_, ?_⟩
    · intro hd; exfalso; linarith [hd.1]
    · intro _; rfl
    · intro hu; exfalso; linarith
  · refine ⟨⟨le_min (by linarith) (by linarith), min_le_left _ _⟩, ?_, ?_, ?_⟩
    · intro hd; exfalso; linarith [hd.2]
    · intro hd; exfalso; linarith
    · intro _; rfl
  · have hA' := not_lt.mp hA
    have hB' := not_lt.mp hB
    refine ⟨⟨h0, by linarith⟩, ?_, ?_, ?_⟩
    · intro _; rfl
    · intro hd; exfalso; linarith
    · intro hu; exfalso; linarith

/-- Witness for C2 (amended) at the all-integer state `witGame`. -/
theorem c2_amended_ai_paddle_witness :
    (6 ≤ witGame.rows ∧ 0 ≤ witGame.paddleRight
      ∧ witGame.paddleRight ≤ ((witGame.rows - 6 : ℕ) : ℚ))
    ∧ (0 ≤ (moveAIPaddle witGame).paddleRight
      ∧ (moveAIPaddle witGame).paddleRight ≤ (witGame.rows : ℚ) - 6) :=
  ⟨⟨by decide, by decide, by decide⟩,
    (c2_amended_ai_paddle witGame (by decide) (by decide) (by decide)).1⟩

/-- C3 (confirmed): in a non-paused tick on a board with at least one row,
the clamp step leaves `0 ≤ ballY ≤ rows - 1`, and the bound still holds at
the end of the tick, whether or not scoring reset the ball to the centre
row (and `moveAIPaddle` never touches `ballY`). -/
theorem c3_ballY_clamped (s : GameState) (r : TickRand)
    (hp : s.paused = false) (hr : 1 ≤ s.rows) :
    (0 ≤ (preScore s r).ballY ∧ (preScore s r).ballY ≤ (s.rows : ℚ) - 1)
    ∧ (0 ≤ (gameLoopTick s r).ballY ∧ (gameLoopTick s r).ballY ≤ (s.rows : ℚ) - 1) := by
  have hrq : (1 : ℚ) ≤ (s.rows : ℚ) := by exact_mod_cast hr
  have hY : (preScore s r).ballY
      = max 0 (min ((s.rows : ℚ) - 1)
          ((rightPaddle (leftPaddle (wallBounce (integrate s)) r.pl) r.pr).ballY)) := by
    unfold preScore
    rw [clampBallY_ballY]
    simp
  have h1 : 0 ≤ (preScore s r).ballY := by rw [hY]; exact le_max_left 0 _
  have h2 : (preScore s r).ballY ≤ (s.rows : ℚ) - 1 := by
    rw [hY]; exact max_le (by linarith) (min_le_left _ _)
  refine ⟨⟨h1, h2⟩, ?_⟩
  have ht : gameLoopTick s r = moveAIPaddle (scoreStep (preScore s r) r.reset) := by
    simp [gameLoopTick, hp]
  rw [ht, moveAIPaddle_ballY]
  unfold scoreStep
  split_ifs with hx1 hx2
  · refine ⟨by simp, ?_⟩
    have hrow : (resetBall
        { preScore s r with scoreRight := (preScore s r).scoreRight + 1 } r.reset).ballY
        = ((s.rows / 2 : ℕ) : ℚ) := by simp
    rw [hrow]
    exact center_row_le s.rows hr
  · refine ⟨by simp, ?_⟩
    have hrow : (resetBall
        { preScore s r with scoreLeft := (preScore s r).scoreLeft + 1 } r.reset).ballY
        = ((s.rows / 2 : ℕ) : ℚ) := by simp
    rw [hrow]
    exact center_row_le s.rows hr
  · exact ⟨h1, h2⟩

/-- Witness for C3 at the state `witGame` and draws `witTick`. -/
theorem c3_ballY_clamped_witness :
    (witGame.paused = false ∧ 1 ≤ witGame.rows)
    ∧ (0 ≤ (gameLoopTick witGame witTick).ballY
      ∧ (gameLoopTick witGame witTick).ballY ≤ (witGame.rows : ℚ) - 1) :=
  ⟨⟨rfl, by decide⟩, (c3_ballY_clamped witGame witTick rfl (by decide)).2⟩

/-- C4 (confirmed): scoring in a non-paused tick is decided by the
post-integration horizontal position `ballX + ballSpeedX` (unchanged through
bounce, paddle and clamp steps).  If it is below 0 the right score alone
increments by one and the ball is recentred; if it is at or beyond `columns`
the left score alone increments and the ball is recentred; both conditions
can never hold at once when `columns` is positive; otherwise both scores are
unchanged. -/
theorem c4_scoring_rules (s : GameState) (r : TickRand)
    (hp : s.paused = false) (hc : 0 < s.columns) :
    ¬ (s.ballX + s.ballSpeedX < 0 ∧ (s.columns : ℚ) ≤ s.ballX + s.ballSpeedX)
    ∧ (s.ballX + s.ballSpeedX < 0 →
        (gameLoopTick s r).scoreRight = s.scoreRight + 1
        ∧ (gameLoopTick s r).scoreLeft = s.scoreLeft
        ∧ (gameLoopTick s r).ballX = ((s.columns / 2 : ℕ) : ℚ)
        ∧ (gameLoopTick s r).ballY = ((s.rows / 2 : ℕ) : ℚ))
    ∧ ((s.columns : ℚ) ≤ s.ballX + s.ballSpeedX →
        (gameLoopTick s r).scoreLeft = s.scoreLeft + 1
        ∧ (gameLoopTick s r).scoreRight = s.scoreRight
        ∧ (gameLoopTick s r).ballX = ((s.columns / 2 : ℕ) : ℚ)
        ∧ (gameLoopTick s r).ballY = ((s.rows / 2 : ℕ) : ℚ))
    ∧ (0 ≤ s.ballX + s.ballSpeedX → s.ballX + s.ballSpeedX < (s.columns : ℚ) →
        (gameLoopTick s r).scoreLeft = s.scoreLeft
        ∧ (gameLoopTick s r).scoreRight = s.scoreRight) := by
  have hcq : (0 : ℚ) < (s.columns : ℚ) := by exact_mod_cast hc
  have ht : gameLoopTick s r = moveAIPaddle (scoreStep (preScore s r) r.reset) := by
    simp [gameLoopTick, hp]
  have hbx : (preScore s r).ballX = s.ballX + s.ballSpeedX := preScore_ballX s r
  refine ⟨fun h => by linarith [h.1, h.2], ?_, ?_, ?_⟩
  · intro h1
    rw [ht]
    unfold scoreStep
    rw [hbx, if_pos h1]
    refine ⟨by simp, by simp, by simp, by simp⟩
  · intro h2
    rw [ht]
    unfold scoreStep
    rw [hbx, preScore_columns, if_neg (by linarith), if_pos h2]
    refine ⟨by simp, by simp, by simp, by simp⟩
  · intro h0 h1
    rw [ht]
    unfold scoreStep
    rw [hbx, preScore_columns, if_neg (by linarith), if_neg (not_le.mpr h1)]
    exact ⟨by simp, by simp⟩

/-- Witness for C4 at the state `witGame` and draws `witTick`. -/
theorem c4_scoring_rules_witness :
    (witGame.paused = false ∧ 0 < witGame.columns)
    ∧ ¬ (witGame.ballX + witGame.ballSpeedX < 0
      ∧ (witGame.columns : ℚ) ≤ witGame.ballX + witGame.ballSpeedX) :=
  ⟨⟨rfl, by decide⟩, (c4_scoring_rules witGame witTick rfl (by decide)).1⟩

/-- C6 (confirmed): when the post-integration ball satisfies `ballX ≤ 1` and
lies in the left paddle band `[paddleLeft, paddleLeft + 5]`, the collision
step sets `ballSpeedX` to its absolute value (magnitude preserved, direction
positive) and adds `(rand - 1/2)/5 ∈ [-1/10, 1/10)` to `ballSpeedY` for
`rand ∈ [0, 1)`; and concretely, one full tick from
`ballX = 1/2, ballY = 9, paddleLeft = 9, ballSpeedX = -1/2` on a default
board ends with `ballSpeedX = 1/2`. -/
theorem c6_left_paddle_collision (s : GameState) (rp : ℚ)
    (hx : s.ballX ≤ 1) (hb1 : s.paddleLeft ≤ s.ballY) (hb2 : s.ballY ≤ s.paddleLeft + 5)
    (hr0 : 0 ≤ rp) (hr1 : rp < 1) :
    ((leftPaddle s rp).ballSpeedX = |s.ballSpeedX|
      ∧ (leftPaddle s rp).ballSpeedY = s.ballSpeedY + (rp - 1/2) * (1/5)
      ∧ -(1/10) ≤ (leftPaddle s rp).ballSpeedY - s.ballSpeedY
      ∧ (leftPaddle s rp).ballSpeedY - s.ballSpeedY < 1/10)
    ∧ (leftHitState.ballX = 1/2 ∧ leftHitState.ballY = 9 ∧ leftHitState.paddleLeft = 9
      ∧ leftHitState.ballSpeedX = -(1/2)
      ∧ (gameLoopTick leftHitState sampleTick).ballSpeedX = 1/2) := by
  have hL : leftPaddle s rp
      = { s with ballSpeedX := |s.ballSpeedX|
                 ballSpeedY := s.ballSpeedY + (rp - 1/2) * (1/5) } := by
    unfold leftPaddle
    rw [if_pos ⟨hx, hb1, hb2⟩]
  constructor
  · rw [hL]
    refine ⟨rfl, rfl, ?_, ?_⟩
    · show -(1/10) ≤ s.ballSpeedY + (rp - 1/2) * (1/5) - s.ballSpeedY
      linarith
    · show s.ballSpeedY + (rp - 1/2) * (1/5) - s.ballSpeedY < 1/10
      linarith
  · refine ⟨?_, ?_, ?_, ?_, ?_⟩ <;>
      norm_num [leftHitState, sampleStart, sampleTick, sampleReset, startGameInit,
        resizeHandler, initialGameState, gameLoopTick, preScore, integrate, wallBounce,
        leftPaddle, rightPaddle, clampBallY, scoreStep, resetBall, moveAIPaddle]

/-- Witness for C6 at the all-integer state `witLeftHit` with draw 0. -/
theorem c6_left_paddle_collision_witness :
    (witLeftHit.ballX ≤ 1 ∧ witLeftHit.paddleLeft ≤ witLeftHit.ballY
      ∧ witLeftHit.ballY ≤ witLeftHit.paddleLeft + 5 ∧ (0 : ℚ) ≤ 0 ∧ (0 : ℚ) < 1)
    ∧ (leftPaddle witLeftHit 0).ballSpeedX = |witLeftHit.ballSpeedX| :=
  ⟨⟨by decide, by decide, le_add_of_nonneg_right (by decide), by decide, by decide⟩,
    (c6_left_paddle_collision witLeftHit 0 (by decide) (by decide)
      (le_add_of_nonneg_right (by decide)) (by decide) (by decide)).1.1⟩

/-- C10 (confirmed): in every reachable game state the left paddle height is
an integer - `startGame` sets it to `Math.floor(rows / 2) - 3` and only the
input handler's unit increments change it afterwards - so the collision band
`[paddleLeft, paddleLeft + 5]` has integer endpoints. -/
theorem c10_paddleLeft_integer (s : GameState) (h : Reachable s) :
    ∃ k : ℤ, s.paddleLeft = (k : ℚ) ∧ s.paddleLeft + 5 = ((k + 5 : ℤ) : ℚ) := by
  suffices hk : ∃ k : ℤ, s.paddleLeft = (k : ℚ) by
    obtain ⟨k, hkk⟩ := hk
    exact ⟨k, hkk, by rw [hkk]; push_cast; ring⟩
  induction h with
  | start ir ic r =>
    refine ⟨(((resizeHandler initialGameState ir ic).rows / 2 : ℕ) : ℤ) - 3, ?_⟩
    show ((((resizeHandler initialGameState ir ic).rows / 2 : ℕ) : ℚ) - 3) = _
    rw [Int.cast_sub, Int.cast_natCast]
    norm_num
  | step s e _ ih =>
    obtain ⟨k, hk⟩ := ih
    cases e with
    | tick r =>
      refine ⟨k, ?_⟩
      show (gameLoopTick s r).paddleLeft = (k : ℚ)
      rw [gameLoopTick_paddleLeft]
      exact hk
    | input key =>
      show ∃ k' : ℤ, (handleInput s key).paddleLeft = (k' : ℚ)
      unfold handleInput
      split_ifs with h1 h2 h3
      · exact ⟨k, hk⟩
      · refine ⟨k - 1, ?_⟩
        show s.paddleLeft - 1 = _
        rw [hk]
        push_cast
        ring
      · refine ⟨k + 1, ?_⟩
        show s.paddleLeft + 1 = _
        rw [hk]
        push_cast
        ring
      · exact ⟨k, hk⟩
    | resize ir ic =>
      show ∃ k' : ℤ, (resizeHandler s ir ic).paddleLeft = (k' : ℚ)
      unfold resizeHandler
      split_ifs with h1
      · exact ⟨k, hk⟩
      · exact ⟨k, hk⟩

/-- Witness for C10 at the freshly started game `sampleStart`. -/
theorem c10_paddleLeft_integer_witness :
    ∃ k : ℤ, sampleStart.paddleLeft = (k : ℚ)
      ∧ sampleStart.paddleLeft + 5 = ((k + 5 : ℤ) : ℚ) :=
  c10_paddleLeft_integer sampleStart (Reachable.start 24 80 sampleReset)

/-! ### Renderer lemmas. -/

theorem str_append_assoc (a b c : String) : a ++ b ++ c = a ++ (b ++ c) := by
  obtain ⟨la⟩ := a
  obtain ⟨lb⟩ := b
  obtain ⟨lc⟩ := c
  exact congrArg String.mk (List.append_assoc la lb lc)

theorem countChar_append (a b : String) (c : Char) :
    countChar (a ++ b) c = countChar a c + countChar b c := by
  cases a; cases b
  simp [countChar, String.append, List.count_append]

theorem digitChar_ne_ball (n : ℕ) : digitChar n ≠ '●' := by
  unfold digitChar
  split_ifs <;> decide

theorem natToCharsAux_ball_count (n : ℕ) (acc : List Char) :
    (natToCharsAux n acc).count '●' = acc.count '●' := by
  induction n using Nat.strong_induction_on generalizing acc with
  | _ n ih =>
    rw [natToCharsAux]
    split_ifs with h
    · simp [List.count_cons, digitChar_ne_ball n]
    · rw [ih (n / 10) (Nat.div_lt_self (by omega) (by omega))]
      simp [List.count_cons, digitChar_ne_ball (n % 10)]

theorem natToString_ball_count (n : ℕ) : countChar (natToString n) '●' = 0 := by
  show (natToCharsAux n []).count '●' = 0
  rw [natToCharsAux_ball_count]
  rfl

theorem intToString_ball_count (n : ℤ) : countChar (intToString n) '●' = 0 := by
  unfold intToString
  split_ifs with h
  · rw [countChar_append, natToString_ball_count]
    decide
  · exact natToString_ball_count n.natAbs

theorem strConcat_ball_count_zero (l : List String)
    (h : ∀ x ∈ l, countChar x '●' = 0) : countChar (strConcat l) '●' = 0 := by
  induction l with
  | nil => rfl
  | cons x rest ih =>
    rw [strConcat, countChar_append, h x (List.mem_cons_self x rest),
      ih (fun y hy => h y (List.mem_cons_of_mem x hy))]

theorem paddleLine_ball_count (s : GameState) (i : ℕ) :
    countChar (paddleLine s i) '●' = 0 := by
  unfold paddleLine
  simp only [countChar_append, natToString_ball_count, intToString_ball_count]
  decide

theorem midLine_ball_count (s : GameState) (i : ℕ) :
    countChar (midLine s i) '●' = 0 := by
  unfold midLine
  simp only [countChar_append, natToString_ball_count]
  decide

theorem scoreSeq_ball_count (s : GameState) :
    countChar (scoreSeq s) '●' = 0 := by
  unfold scoreSeq
  simp only [countChar_append, natToString_ball_count, intToString_ball_count]
  decide

theorem ballSeq_ball_count (s : GameState) :
    countChar (ballSeq s) '●' = 1 := by
  unfold ballSeq
  simp only [countChar_append, intToString_ball_count]
  decide

/-- C8 (confirmed): the rendered frame is the pure function `renderGame` of
the state; it decomposes as a prefix starting with the clear-screen plus
cursor-home sequence, then the ball control sequence placing the single red
ball glyph at 1-indexed floored coordinates - row `Math.floor(ballY) + 1`,
column `Math.floor(ballX) + 1` - then the score text; the ball glyph occurs
exactly once in the whole frame. -/
theorem c8_render_single_ball (s : GameState) :
    renderGame s
      = ("\x1b[2J\x1b[H"
          ++ strConcat ((List.range 6).map (paddleLine s))
          ++ strConcat ((List.range s.rows).map (midLine s)))
        ++ ("\x1b[" ++ intToString (⌊s.ballY⌋ + 1) ++ ";" ++ intToString (⌊s.ballX⌋ + 1)
          ++ "H\x1b[31m●\x1b[0m")
        ++ scoreSeq s
    ∧ (∃ t : String, renderGame s = "\x1b[2J\x1b[H" ++ t)
    ∧ countChar (renderGame s) '●' = 1 := by
  have hpad : countChar (strConcat ((List.range 6).map (paddleLine s))) '●' = 0 := by
    refine strConcat_ball_count_zero _ ?_
    intro x hx
    obtain ⟨i, _, rfl⟩ := List.mem_map.mp hx
    exact paddleLine_ball_count s i
  have hmid : countChar (strConcat ((List.range s.rows).map (midLine s))) '●' = 0 := by
    refine strConcat_ball_count_zero _ ?_
    intro x hx
    obtain ⟨i, _, rfl⟩ := List.mem_map.mp hx
    exact midLine_ball_count s i
  refine ⟨rfl, ⟨strConcat ((List.range 6).map (paddleLine s))
      ++ (strConcat ((List.range s.rows).map (midLine s)) ++ (ballSeq s ++ scoreSeq s)), ?_⟩, ?_⟩
  · unfold renderGame
    rw [str_append_assoc, str_append_assoc, str_append_assoc]
  · unfold renderGame
    rw [countChar_append, countChar_append, countChar_append, countChar_append,
      hpad, hmid, ballSeq_ball_count, scoreSeq_ball_count]
    decide

end Pong
